import Mathlib

/-!
Verification of the entity-resolution / graph-linking engine of the
`agentic-kg-workshop` repository.

The engine (class `EntityResolutionAgent` in
`src/notebooks/entity_resolution_agent.py`) works against a property-graph
store through parameterized queries.  We shallowly embed:

* the graph state (nodes with labels and string-valued properties, and
  `CORRESPONDS_TO` edges with their provenance properties);
* the semantics of each query the engine issues, translated from the Cypher
  text in the source;
* the Python control flow of the engine's methods.

Store-adapter failures (the `status: error` outcome of `graphdb.send_query`,
which does not depend on graph contents) are modelled by an explicit fault
oracle `Faults`: for each query site it says whether the adapter fails and
with what message.  The string-similarity metric used by the join query
(`apoc.text.jaroWinklerDistance`, a function of the external APOC library,
not part of this repository) is a parameter `dist : String → String → ℚ`
of the embedding; the engine treats its result as a distance in [0,1] and
defines similarity as `1 - dist`.  Timestamps (`datetime()`) are modelled by
a logical clock `now : Nat` supplied to each run.

The quality-scoring function of
`src/automated_pipeline/pipeline/adk_dynamic_builder.py`
(`validate_graph_quality`) is embedded as the pure function of its three
metrics that the source computes.
-/

/-- A property-graph node: identity, labels, and string-valued properties
(the values the engine compares are strings; the join query stringifies
them with `toString` anyway). -/
structure Node where
  nid : Nat
  labels : List String
  props : List (String × String)
deriving DecidableEq

/-- A `CORRESPONDS_TO` relationship together with the properties the engine
sets on it (`entity_key`, `domain_key`, `similarity`, `created_at`,
`updated_at`). -/
structure CorrEdge where
  src : Nat
  dst : Nat
  entity_key : String
  domain_key : String
  similarity : ℚ
  created_at : Nat
  updated_at : Nat
deriving DecidableEq

/-- Graph state: the node population and the `CORRESPONDS_TO` edges.
(Other relationship types never interact with the resolution engine, so
they are not represented.) -/
structure Graph where
  nodes : List Node
  edges : List CorrEdge
deriving DecidableEq

/-- `n.labels` membership test, as the query label predicates. -/
def hasLabel (n : Node) (l : String) : Bool :=
  n.labels.contains l

/-- Property access `n[key]`; `none` plays the role of Cypher `null`. -/
def lookupProp (n : Node) (k : String) : Option String :=
  (n.props.find? (fun p => p.1 == k)).map Prod.snd

/-- First node with a given id (edge endpoints are looked up by id). -/
def Graph.findNode (g : Graph) (nid : Nat) : Option Node :=
  g.nodes.find? (fun n => n.nid == nid)

/-- Whether the node with id `nid` carries label `l`. -/
def Graph.nodeHas (g : Graph) (nid : Nat) (l : String) : Bool :=
  match g.findNode nid with
  | some n => hasLabel n l
  | none => false

/-- Whether a `CORRESPONDS_TO` edge from `s` to `d` exists (the `MERGE`
identity: the ordered endpoint pair). -/
def Graph.hasCorr (g : Graph) (s d : Nat) : Bool :=
  g.edges.any (fun e => e.src == s && e.dst == d)

/-- Lowercasing, characterwise (Python `str.lower` / Cypher `toLower` on
the ASCII identifiers and values this engine handles). -/
def lowerStr (s : String) : String :=
  ⟨s.data.map Char.toLower⟩

/-- Prefix test on character lists: does `p` occur as a prefix of `s`? -/
def charsHasPrefix : List Char → List Char → Bool
  | _, [] => true
  | [], _ :: _ => false
  | a :: s, b :: p => a == b && charsHasPrefix s p

/-- Substring occurrence test on character lists. -/
def charsContains : List Char → List Char → Bool
  | s, sub =>
    charsHasPrefix s sub ||
      match s with
      | [] => false
      | _ :: t => charsContains t sub

/-- The Python `sub in s` test for strings. -/
def strIn (sub s : String) : Bool :=
  charsContains s.data sub.data

/-- `find_unique_entity_labels` (entity_resolution_agent.py, lines 20-40):
all labels of `__Entity__`-tagged nodes, deduplicated, excluding labels
starting with `"__"`. -/
def find_unique_entity_labels (nodes : List Node) : List String :=
  (((nodes.filter (fun n => hasLabel n "__Entity__")).flatMap
      (fun n => n.labels)).eraseDups).filter
    (fun l => !charsHasPrefix l.data "__".data)

/-- `find_unique_entity_keys` (lines 42-65): distinct property keys of
nodes carrying the label and tagged `__Entity__`. -/
def find_entity_keys (nodes : List Node) (label : String) : List String :=
  ((nodes.filter (fun n => hasLabel n label && hasLabel n "__Entity__")).flatMap
      (fun n => n.props.map Prod.fst)).eraseDups

/-- `find_unique_domain_keys` (lines 67-90): distinct property keys of
nodes carrying the label and NOT tagged `__Entity__`. -/
def find_domain_keys (nodes : List Node) (label : String) : List String :=
  ((nodes.filter (fun n => hasLabel n label && !hasLabel n "__Entity__")).flatMap
      (fun n => n.props.map Prod.fst)).eraseDups

/-- Store-adapter fault oracle: for each query site of the engine, whether
the adapter reports `status: error` (and with which `error_message`).
Faults are per label because each query is issued per label. -/
structure Faults where
  labelsErr : Option String
  entityKeysErr : String → Option String
  domainKeysErr : String → Option String
  mergeErr : String → Option String

/-- The fault-free adapter. -/
def noFaults : Faults :=
  { labelsErr := none
    entityKeysErr := fun _ => none
    domainKeysErr := fun _ => none
    mergeErr := fun _ => none }

/-- `find_unique_entity_labels` including its error path: on adapter error
the Python method raises `Exception(f"Failed to get entity labels: ...")`. -/
def find_unique_entity_labelsE (f : Faults) (g : Graph) :
    Except String (List String) :=
  match f.labelsErr with
  | some m => .error ("Failed to get entity labels: " ++ m)
  | none => .ok (find_unique_entity_labels g.nodes)

/-- `find_unique_entity_keys` including its error path (raises on adapter
error). -/
def find_unique_entity_keysE (f : Faults) (g : Graph) (label : String) :
    Except String (List String) :=
  match f.entityKeysErr label with
  | some m => .error ("Failed to get entity keys: " ++ m)
  | none => .ok (find_entity_keys g.nodes label)

/-- `find_unique_domain_keys` including its error path (raises on adapter
error). -/
def find_unique_domain_keysE (f : Faults) (g : Graph) (label : String) :
    Except String (List String) :=
  match f.domainKeysErr label with
  | some m => .error ("Failed to get domain keys: " ++ m)
  | none => .ok (find_domain_keys g.nodes label)

/-- `normalize_key` (lines 92-118): lowercase, strip a leading occurrence
of the (lowercased) label followed by any run of `_`/space separators
(the source's regex `^{label}[_ ]*` with a literal label), then replace
spaces by underscores. -/
def normalize_key (label key : String) : String :=
  let normalized := key.data.map Char.toLower
  let lab := label.data.map Char.toLower
  let stripped :=
    if charsHasPrefix normalized lab then
      (normalized.drop lab.length).dropWhile (fun c => c == '_' || c == ' ')
    else normalized
  ⟨stripped.map (fun c => if c == ' ' then '_' else c)⟩

/-- Stable insertion of a correlated triple into a list sorted by score
descending (ties keep earlier elements first). -/
def insertByScoreDesc (x : String × String × ℚ) :
    List (String × String × ℚ) → List (String × String × ℚ)
  | [] => [x]
  | y :: ys => if y.2.2 ≤ x.2.2 then x :: y :: ys else y :: insertByScoreDesc x ys

/-- Stable sort by score descending: the result Python's stable
`list.sort(key=..., reverse=True)` produces. -/
def sortByScoreDesc : List (String × String × ℚ) → List (String × String × ℚ)
  | [] => []
  | x :: xs => insertByScoreDesc x (sortByScoreDesc xs)

/-- `correlate_keys` (lines 120-160): pair up entity and domain keys whose
normalized forms are equal (score 1.0) or substring-related with a length
quotient clearing the threshold; sort by score descending (stable). -/
def correlate_keys (label : String) (entity_keys domain_keys : List String)
    (similarity_threshold : ℚ) : List (String × String × ℚ) :=
  let correlated := entity_keys.flatMap (fun ek =>
    domain_keys.filterMap (fun dk =>
      let ne := normalize_key label ek
      let nd := normalize_key label dk
      if ne = nd then some (ek, dk, (1 : ℚ))
      else if strIn ne nd || strIn nd ne then
        let s : ℚ := (min ne.length nd.length : ℚ) / (max ne.length nd.length : ℚ)
        if similarity_threshold ≤ s then some (ek, dk, s) else none
      else none))
  sortByScoreDesc correlated

/-- The row set of the similarity-join `MATCH` in
`create_correspondence_relationships` (lines 186-204):

    MATCH (entity:L:`__Entity__`), (domain:L)
    WHERE apoc.text.jaroWinklerDistance(toLower(toString(entity[ek])),
                                        toLower(toString(domain[dk]))) < $distance

one row per node pair passing the filter; the third component is the
similarity `1 - distance` the query would store.  Note the `domain` side is
matched by label only — the source does NOT exclude `__Entity__`-tagged
nodes there.  Pairs where either property is absent produce a `null`
comparison and are filtered out. -/
def matched_pairs (dist : String → String → ℚ) (nodes : List Node)
    (label entityKey domainKey : String) (distThreshold : ℚ) :
    List (Nat × Nat × ℚ) :=
  (nodes.filter (fun e => hasLabel e label && hasLabel e "__Entity__")).flatMap
    (fun e => (nodes.filter (fun d => hasLabel d label)).filterMap
      (fun d =>
        match lookupProp e entityKey, lookupProp d domainKey with
        | some ev, some dv =>
          if dist (lowerStr ev) (lowerStr dv) < distThreshold then
            some (e.nid, d.nid, 1 - dist (lowerStr ev) (lowerStr dv))
          else none
        | _, _ => none))

/-- One `MERGE (entity)-[r:CORRESPONDS_TO]->(domain)` step: if an edge with
these endpoints exists, `ON MATCH SET r.updated_at`; otherwise create it
with the provenance properties (`ON CREATE SET`). -/
def mergeCorr (now : Nat) (entityKey domainKey : String)
    (g : Graph) (p : Nat × Nat × ℚ) : Graph :=
  if g.hasCorr p.1 p.2.1 then
    { g with edges := g.edges.map (fun e =>
        if e.src == p.1 && e.dst == p.2.1 then { e with updated_at := now } else e) }
  else
    { g with edges := g.edges ++
        [{ src := p.1, dst := p.2.1, entity_key := entityKey,
           domain_key := domainKey, similarity := p.2.2,
           created_at := now, updated_at := now }] }

/-- Result dictionary of `create_correspondence_relationships`
(lines 213-228): either the error dictionary or the success dictionary
with the `count(r)` row count. -/
inductive CCRResult where
  | err (msg : String)
  | success (label entityKey domainKey : String) (relationships_created : Nat)
deriving DecidableEq

/-- `create_correspondence_relationships` (lines 162-228): convert the
similarity threshold into the distance threshold `1 - t`, run the join
query merging one edge per matched pair, and return `count(r)` (the number
of matched rows); on adapter error return the error dictionary with the
graph untouched. -/
def create_correspondence_relationships (dist : String → String → ℚ)
    (f : Faults) (g : Graph) (label entityKey domainKey : String)
    (similarity_threshold : ℚ) (now : Nat) : CCRResult × Graph :=
  let distThreshold := 1 - similarity_threshold
  match f.mergeErr label with
  | some m => (.err m, g)
  | none =>
    let pairs := matched_pairs dist g.nodes label entityKey domainKey distThreshold
    (.success label entityKey domainKey pairs.length,
      pairs.foldl (mergeCorr now entityKey domainKey) g)

/-- The result dictionary built by `resolve_all_entities` (lines 245-249):
its keys are exactly `entities_resolved`, `total_relationships`, `errors`. -/
structure ResolveResult where
  entities_resolved : List (String × Nat)
  total_relationships : Nat
  errors : List String
deriving DecidableEq

/-- Values a result-dictionary entry can hold. -/
inductive JVal where
  | num (n : Nat)
  | strList (ss : List String)
  | countMap (m : List (String × Nat))
deriving DecidableEq

/-- The dictionary `resolve_all_entities` returns, as the key/value rows
the source constructs: the literal at lines 245-249 (later statements
mutate these three entries in place and add no further top-level key). -/
def ResolveResult.toDict (r : ResolveResult) : List (String × JVal) :=
  [("entities_resolved", .countMap r.entities_resolved),
   ("total_relationships", .num r.total_relationships),
   ("errors", .strList r.errors)]

/-- The warning recorded when a label has no entity or no domain keys
(line 264). -/
def noKeysMsg (label : String) (ne nd : Nat) : String :=
  "  ⚠️  No keys found for " ++ label ++ " (entity keys: " ++ toString ne ++
    ", domain keys: " ++ toString nd ++ ")"

/-- The warning recorded when no key correlation is found (line 278). -/
def noCorrMsg (label : String) : String :=
  "  ⚠️  No correlating keys found for " ++ label

/-- The error recorded when correspondence creation fails (line 303). -/
def failMsg (label msg : String) : String :=
  "Failed to resolve " ++ label ++ ": " ++ msg

/-- One iteration of the per-label loop of `resolve_all_entities`
(lines 256-305).  Exceptions raised by the key-discovery calls propagate
(`Except.error`); empty key sets, missing correlations and
correspondence-creation failures are recorded in `errors` and the loop
continues. -/
def resolve_label (dist : String → String → ℚ) (f : Faults) (simT keyT : ℚ)
    (now : Nat) (label : String) (res : ResolveResult) (g : Graph) :
    Except String (ResolveResult × Graph) :=
  match find_unique_entity_keysE f g label with
  | .error e => .error e
  | .ok entity_keys =>
    match find_unique_domain_keysE f g label with
    | .error e => .error e
    | .ok domain_keys =>
      if entity_keys.isEmpty || domain_keys.isEmpty then
        .ok ({ res with errors := res.errors ++
                 [noKeysMsg label entity_keys.length domain_keys.length] }, g)
      else
        match correlate_keys label entity_keys domain_keys keyT with
        | [] => .ok ({ res with errors := res.errors ++ [noCorrMsg label] }, g)
        | (entity_key, domain_key, _) :: _ =>
          match create_correspondence_relationships dist f g label entity_key
              domain_key simT now with
          | (.err m, g') =>
            .ok ({ res with errors := res.errors ++ [failMsg label m] }, g')
          | (.success _ _ _ count, g') =>
            .ok ({ res with
                    entities_resolved := res.entities_resolved ++ [(label, count)],
                    total_relationships := res.total_relationships + count }, g')

/-- The `for entity_label in entity_labels` loop of `resolve_all_entities`. -/
def resolve_loop (dist : String → String → ℚ) (f : Faults) (simT keyT : ℚ)
    (now : Nat) : List String → ResolveResult → Graph →
    Except String (ResolveResult × Graph)
  | [], res, g => .ok (res, g)
  | label :: rest, res, g =>
    match resolve_label dist f simT keyT now label res g with
    | .error e => .error e
    | .ok (res', g') => resolve_loop dist f simT keyT now rest res' g'

/-- `resolve_all_entities` (lines 230-307): discover the entity labels and
run the per-label loop starting from the empty result dictionary.
`Except.error` models an uncaught exception aborting the run. -/
def resolve_all_entities (dist : String → String → ℚ) (f : Faults)
    (g : Graph) (simT keyT : ℚ) (now : Nat) :
    Except String (ResolveResult × Graph) :=
  match find_unique_entity_labelsE f g with
  | .error e => .error e
  | .ok labels =>
    resolve_loop dist f simT keyT now labels
      { entities_resolved := [], total_relationships := 0, errors := [] } g

/-- A validation issue reported by `validate_resolutions` (lines 372-427);
the constructor fields are the dictionary entries the source builds. -/
inductive Issue where
  | multiple_correspondences (entity_id : Nat) (labels : List String)
      (count : Nat) (message : String)
  | low_similarity (entity_id domain_id : Nat) (similarity : ℚ)
      (message : String)
deriving DecidableEq

/-- Outgoing `CORRESPONDS_TO` count of a node (`count(r)` grouped by `e`). -/
def outCorrCount (g : Graph) (n : Node) : Nat :=
  (g.edges.filter (fun e => e.src == n.nid)).length

/-- The `multiple_correspondences` check of `validate_resolutions`
(lines 381-400): `__Entity__` nodes with more than one outgoing
correspondence edge — the query carries `LIMIT 10`. -/
def multi_correspondence_issues (g : Graph) : List Issue :=
  ((g.nodes.filter (fun n =>
      hasLabel n "__Entity__" && decide (1 < outCorrCount g n))).take 10).map
    (fun n => .multiple_correspondences n.nid n.labels (outCorrCount g n)
      ("Entity has " ++ toString (outCorrCount g n) ++ " correspondences"))

/-- The `low_similarity` check of `validate_resolutions` (lines 402-425):
correspondence edges with similarity below 0.7 — also `LIMIT 10`.
(The source renders the similarity with two decimals in the message; the
rendering is presentational and embedded as a plain print of the value.) -/
def low_similarity_issues (g : Graph) : List Issue :=
  ((g.edges.filter (fun e => decide (e.similarity < 7/10))).take 10).map
    (fun e => .low_similarity e.src e.dst e.similarity
      ("Low similarity correspondence: " ++ toString e.similarity))

/-- `validate_resolutions` (lines 372-427): both advisory checks, in
source order. -/
def validate_resolutions (g : Graph) : List Issue :=
  multi_correspondence_issues g ++ low_similarity_issues g

/-- Whether the scoped deletion query of
`remove_correspondence_relationships` (lines 439-454) matches an edge: the
edge's source must be `__Entity__`-tagged and, when a label is given,
carry that label. -/
def corrDeletePred (g : Graph) (label : Option String) (e : CorrEdge) : Bool :=
  match label with
  | some l => g.nodeHas e.src l && g.nodeHas e.src "__Entity__"
  | none => g.nodeHas e.src "__Entity__"

/-- The success dictionary of `remove_correspondence_relationships`. -/
structure RemoveResult where
  deleted_count : Nat
  label_scope : String
deriving DecidableEq

/-- `remove_correspondence_relationships` (lines 429-470): delete the
matching correspondence edges and report how many rows were deleted. -/
def remove_correspondence_relationships (g : Graph) (label : Option String) :
    RemoveResult × Graph :=
  let deleted := g.edges.filter (corrDeletePred g label)
  ({ deleted_count := deleted.length, label_scope := label.getD "all" },
    { g with edges := g.edges.filter (fun e => !corrDeletePred g label e) })

/-- The quality-score computation of `validate_graph_quality`
(`adk_dynamic_builder.py`, lines 392-419), as a function of the three
metrics the source reads back from its queries: start at 100; if there are
orphan nodes subtract `min(orphans * 2, 30)`; if connectivity is not above
0.8 and is below 0.5 subtract 20; if the relationship-type count is not
above 5 and is below 3 subtract 10; floor at 0. -/
def quality_score (orphan_nodes : Nat) (connectivity : ℚ)
    (relationship_types : Nat) : Int :=
  let s0 : Int := 100
  let s1 : Int := if 0 < orphan_nodes then s0 - min ((orphan_nodes : Int) * 2) 30 else s0
  let s2 : Int := if 8/10 < connectivity then s1
    else if connectivity < 1/2 then s1 - 20 else s1
  let s3 : Int := if 5 < relationship_types then s2
    else if relationship_types < 3 then s2 - 10 else s2
  max s3 0

/-! ### Lemmas about the `MERGE` step -/

theorem mergeCorr_nodes (now : Nat) (ek dk : String) (g : Graph)
    (p : Nat × Nat × ℚ) : (mergeCorr now ek dk g p).nodes = g.nodes := by
  unfold mergeCorr
  split <;> rfl

theorem foldl_mergeCorr_nodes (now : Nat) (ek dk : String)
    (ps : List (Nat × Nat × ℚ)) (g : Graph) :
    (ps.foldl (mergeCorr now ek dk) g).nodes = g.nodes := by
  induction ps generalizing g with
  | nil => rfl
  | cons p ps ih => simp [List.foldl_cons, ih, mergeCorr_nodes]

theorem hasCorr_iff (g : Graph) (s d : Nat) :
    g.hasCorr s d = true ↔ ∃ e ∈ g.edges, e.src = s ∧ e.dst = d := by
  simp [Graph.hasCorr, List.any_eq_true]

theorem any_src_dst_map_update (now : Nat) (p : Nat × Nat × ℚ)
    (l : List CorrEdge) (s d : Nat) :
    (l.map (fun e =>
        if e.src == p.1 && e.dst == p.2.1 then { e with updated_at := now }
        else e)).any (fun e => e.src == s && e.dst == d) =
      l.any (fun e => e.src == s && e.dst == d) := by
  induction l with
  | nil => rfl
  | cons e l ih =>
    simp only [List.map_cons, List.any_cons, ih]
    congr 1
    split <;> rfl

theorem hasCorr_mergeCorr (now : Nat) (ek dk : String) (g : Graph)
    (p : Nat × Nat × ℚ) (s d : Nat) :
    (mergeCorr now ek dk g p).hasCorr s d =
      (g.hasCorr s d || (p.1 == s && p.2.1 == d)) := by
  unfold mergeCorr
  split
  case isTrue h =>
    show (g.edges.map _).any _ = _
    rw [any_src_dst_map_update]
    cases hb : (p.1 == s && p.2.1 == d)
    · rw [Bool.or_false]
      rfl
    · rw [Bool.or_true]
      simp only [Bool.and_eq_true, beq_iff_eq] at hb
      obtain ⟨h1, h2⟩ := hb
      rw [← h1, ← h2]
      exact h
  case isFalse h =>
    show (g.edges ++ _).any _ = _
    rw [List.any_append]
    simp [Graph.hasCorr]

theorem hasCorr_foldl (now : Nat) (ek dk : String)
    (ps : List (Nat × Nat × ℚ)) (g : Graph) (s d : Nat) :
    (ps.foldl (mergeCorr now ek dk) g).hasCorr s d =
      (g.hasCorr s d || ps.any (fun p => p.1 == s && p.2.1 == d)) := by
  induction ps generalizing g with
  | nil => simp
  | cons p ps ih =>
    simp [List.foldl_cons, ih, hasCorr_mergeCorr, Bool.or_assoc]

theorem mergeCorr_length_of_hasCorr (now : Nat) (ek dk : String) (g : Graph)
    (p : Nat × Nat × ℚ) (h : g.hasCorr p.1 p.2.1 = true) :
    (mergeCorr now ek dk g p).edges.length = g.edges.length := by
  unfold mergeCorr
  rw [if_pos h]
  simp

theorem foldl_length_of_present (now : Nat) (ek dk : String)
    (ps : List (Nat × Nat × ℚ)) (g : Graph)
    (h : ∀ p ∈ ps, g.hasCorr p.1 p.2.1 = true) :
    (ps.foldl (mergeCorr now ek dk) g).edges.length = g.edges.length := by
  induction ps generalizing g with
  | nil => rfl
  | cons p ps ih =>
    rw [List.foldl_cons, ih, mergeCorr_length_of_hasCorr]
    · exact h p (List.mem_cons_self p ps)
    · intro q hq
      rw [hasCorr_mergeCorr, h q (List.mem_cons_of_mem p hq)]
      rfl

theorem foldl_pairs_present (now : Nat) (ek dk : String)
    (ps : List (Nat × Nat × ℚ)) (g : Graph) (p : Nat × Nat × ℚ) (h : p ∈ ps) :
    (ps.foldl (mergeCorr now ek dk) g).hasCorr p.1 p.2.1 = true := by
  rw [hasCorr_foldl]
  have : ps.any (fun q => q.1 == p.1 && q.2.1 == p.2.1) = true := by
    rw [List.any_eq_true]
    exact ⟨p, h, by simp⟩
  rw [this, Bool.or_true]

/-! ### The decision the per-label loop body takes

The control flow of lines 256-305 of `resolve_all_entities` inspects only
the node population and the fault oracle, never the edge set.  `label_plan`
records the branch taken and `apply_plan` its effect; `resolve_label_eq`
proves the loop body equal to them whenever key discovery does not raise. -/

inductive LabelPlan where
  | noKeys (ne nd : Nat)
  | noCorrelation
  | mergeFault (m : String)
  | build (entityKey domainKey : String) (ps : List (Nat × Nat × ℚ))
deriving DecidableEq

def label_plan (dist : String → String → ℚ) (f : Faults) (simT keyT : ℚ)
    (nodes : List Node) (label : String) : LabelPlan :=
  if (find_entity_keys nodes label).isEmpty || (find_domain_keys nodes label).isEmpty then
    .noKeys (find_entity_keys nodes label).length (find_domain_keys nodes label).length
  else
    match correlate_keys label (find_entity_keys nodes label)
        (find_domain_keys nodes label) keyT with
    | [] => .noCorrelation
    | (ek, dk, _) :: _ =>
      match f.mergeErr label with
      | some m => .mergeFault m
      | none => .build ek dk (matched_pairs dist nodes label ek dk (1 - simT))

def apply_plan (now : Nat) (label : String) (pl : LabelPlan)
    (res : ResolveResult) (g : Graph) : ResolveResult × Graph :=
  match pl with
  | .noKeys ne nd => ({ res with errors := res.errors ++ [noKeysMsg label ne nd] }, g)
  | .noCorrelation => ({ res with errors := res.errors ++ [noCorrMsg label] }, g)
  | .mergeFault m => ({ res with errors := res.errors ++ [failMsg label m] }, g)
  | .build ek dk ps =>
    ({ res with
        entities_resolved := res.entities_resolved ++ [(label, ps.length)],
        total_relationships := res.total_relationships + ps.length },
      ps.foldl (mergeCorr now ek dk) g)

theorem resolve_label_eq (dist : String → String → ℚ) (f : Faults)
    (simT keyT : ℚ) (now : Nat) (label : String) (res : ResolveResult)
    (g : Graph) (hE : f.entityKeysErr label = none)
    (hD : f.domainKeysErr label = none) :
    resolve_label dist f simT keyT now label res g =
      .ok (apply_plan now label (label_plan dist f simT keyT g.nodes label) res g) := by
  unfold resolve_label find_unique_entity_keysE find_unique_domain_keysE
    label_plan create_correspondence_relationships
  rw [hE, hD]
  cases hEmp : ((find_entity_keys g.nodes label).isEmpty ||
      (find_domain_keys g.nodes label).isEmpty) with
  | true => simp [hEmp, apply_plan]
  | false =>
    simp only [hEmp, Bool.false_eq_true, if_false]
    cases hC : correlate_keys label (find_entity_keys g.nodes label)
        (find_domain_keys g.nodes label) keyT with
    | nil => simp [apply_plan]
    | cons hd tl =>
      obtain ⟨ek, dk, sc⟩ := hd
      cases hM : f.mergeErr label with
      | some m => simp [apply_plan]
      | none => simp [apply_plan]

theorem resolve_label_err_entity (dist : String → String → ℚ) (f : Faults)
    (simT keyT : ℚ) (now : Nat) (label : String) (res : ResolveResult)
    (g : Graph) (m : String) (hE : f.entityKeysErr label = some m) :
    resolve_label dist f simT keyT now label res g =
      .error ("Failed to get entity keys: " ++ m) := by
  unfold resolve_label find_unique_entity_keysE
  rw [hE]

theorem resolve_label_err_domain (dist : String → String → ℚ) (f : Faults)
    (simT keyT : ℚ) (now : Nat) (label : String) (res : ResolveResult)
    (g : Graph) (m : String) (hE : f.entityKeysErr label = none)
    (hD : f.domainKeysErr label = some m) :
    resolve_label dist f simT keyT now label res g =
      .error ("Failed to get domain keys: " ++ m) := by
  unfold resolve_label find_unique_entity_keysE find_unique_domain_keysE
  rw [hE, hD]

def apply_plans (dist : String → String → ℚ) (f : Faults) (simT keyT : ℚ)
    (now : Nat) : List String → ResolveResult → Graph → ResolveResult × Graph
  | [], res, g => (res, g)
  | label :: rest, res, g =>
    let rg := apply_plan now label (label_plan dist f simT keyT g.nodes label) res g
    apply_plans dist f simT keyT now rest rg.1 rg.2

theorem resolve_loop_eq (dist : String → String → ℚ) (f : Faults)
    (simT keyT : ℚ) (now : Nat) (labels : List String) (res : ResolveResult)
    (g : Graph)
    (hf : ∀ L ∈ labels, f.entityKeysErr L = none ∧ f.domainKeysErr L = none) :
    resolve_loop dist f simT keyT now labels res g =
      .ok (apply_plans dist f simT keyT now labels res g) := by
  induction labels generalizing res g with
  | nil => rfl
  | cons L rest ih =>
    have h1 := (hf L (List.mem_cons_self L rest)).1
    have h2 := (hf L (List.mem_cons_self L rest)).2
    unfold resolve_loop apply_plans
    rw [resolve_label_eq dist f simT keyT now L res g h1 h2]
    exact ih _ _ (fun L' hL' => hf L' (List.mem_cons_of_mem L hL'))

/-- `Except.isOk`, specialized; `true` exactly when the run returned a
result rather than raising. -/
def isOkE {α : Type} : Except String α → Bool
  | .ok _ => true
  | .error _ => false

theorem resolve_loop_isOk (dist : String → String → ℚ) (f : Faults)
    (simT keyT : ℚ) (now : Nat) (labels : List String) (res : ResolveResult)
    (g : Graph) :
    isOkE (resolve_loop dist f simT keyT now labels res g) =
      labels.all (fun L => (f.entityKeysErr L).isNone && (f.domainKeysErr L).isNone) := by
  induction labels generalizing res g with
  | nil => rfl
  | cons L rest ih =>
    cases hE : f.entityKeysErr L with
    | some m =>
      unfold resolve_loop
      rw [resolve_label_err_entity dist f simT keyT now L res g m hE]
      simp [hE, isOkE]
    | none =>
      cases hD : f.domainKeysErr L with
      | some m =>
        unfold resolve_loop
        rw [resolve_label_err_domain dist f simT keyT now L res g m hE hD]
        simp [hE, hD, isOkE]
      | none =>
        unfold resolve_loop
        rw [resolve_label_eq dist f simT keyT now L res g hE hD]
        simp [hE, hD, ih]

theorem apply_plan_nodes (now : Nat) (L : String) (pl : LabelPlan)
    (res : ResolveResult) (g : Graph) :
    (apply_plan now L pl res g).2.nodes = g.nodes := by
  cases pl <;> simp [apply_plan, foldl_mergeCorr_nodes]

theorem apply_plans_nodes (dist : String → String → ℚ) (f : Faults)
    (simT keyT : ℚ) (now : Nat) (labels : List String) (res : ResolveResult)
    (g : Graph) :
    (apply_plans dist f simT keyT now labels res g).2.nodes = g.nodes := by
  induction labels generalizing res g with
  | nil => rfl
  | cons L rest ih =>
    unfold apply_plans
    rw [ih]
    exact apply_plan_nodes now L _ res g

/-- Number of relationships a plan reports (the `count(r)` a successful
build contributes). -/
def plan_count : LabelPlan → Nat
  | .build _ _ ps => ps.length
  | _ => 0

theorem apply_plan_total (now : Nat) (L : String) (pl : LabelPlan)
    (res : ResolveResult) (g : Graph) :
    (apply_plan now L pl res g).1.total_relationships =
      res.total_relationships + plan_count pl := by
  cases pl <;> simp [apply_plan, plan_count]

theorem apply_plans_total (dist : String → String → ℚ) (f : Faults)
    (simT keyT : ℚ) (now : Nat) (labels : List String) (res : ResolveResult)
    (g : Graph) :
    (apply_plans dist f simT keyT now labels res g).1.total_relationships =
      res.total_relationships +
        (labels.map (fun L => plan_count (label_plan dist f simT keyT g.nodes L))).sum := by
  induction labels generalizing res g with
  | nil => simp [apply_plans]
  | cons L rest ih =>
    unfold apply_plans
    rw [ih, apply_plan_total, apply_plan_nodes]
    simp [Nat.add_assoc]

theorem apply_plans_cons (dist : String → String → ℚ) (f : Faults)
    (simT keyT : ℚ) (now : Nat) (L : String) (rest : List String)
    (res : ResolveResult) (g : Graph) :
    apply_plans dist f simT keyT now (L :: rest) res g =
      apply_plans dist f simT keyT now rest
        (apply_plan now L (label_plan dist f simT keyT g.nodes L) res g).1
        (apply_plan now L (label_plan dist f simT keyT g.nodes L) res g).2 := rfl

theorem apply_plan_hasCorr_mono (now : Nat) (L : String) (pl : LabelPlan)
    (res : ResolveResult) (g : Graph) (s d : Nat)
    (h : g.hasCorr s d = true) :
    ((apply_plan now L pl res g).2).hasCorr s d = true := by
  cases pl with
  | noKeys ne nd => exact h
  | noCorrelation => exact h
  | mergeFault m => exact h
  | build ek dk ps =>
    simp only [apply_plan]
    rw [hasCorr_foldl, h]
    rfl

theorem apply_plans_hasCorr_mono (dist : String → String → ℚ) (f : Faults)
    (simT keyT : ℚ) (now : Nat) (labels : List String) (res : ResolveResult)
    (g : Graph) (s d : Nat) (h : g.hasCorr s d = true) :
    ((apply_plans dist f simT keyT now labels res g).2).hasCorr s d = true := by
  induction labels generalizing res g with
  | nil => exact h
  | cons L rest ih =>
    rw [apply_plans_cons]
    exact ih _ _ (apply_plan_hasCorr_mono now L _ res g s d h)

theorem apply_plans_presence (dist : String → String → ℚ) (f : Faults)
    (simT keyT : ℚ) (now : Nat) (labels : List String) (res : ResolveResult)
    (g : Graph) :
    ∀ L ∈ labels, ∀ ek dk ps,
      label_plan dist f simT keyT g.nodes L = .build ek dk ps →
      ∀ p ∈ ps,
        ((apply_plans dist f simT keyT now labels res g).2).hasCorr p.1 p.2.1 = true := by
  induction labels generalizing res g with
  | nil => intro L hL; cases hL
  | cons L0 rest ih =>
    intro L hL ek dk ps hplan p hp
    rw [apply_plans_cons]
    rcases List.mem_cons.mp hL with rfl | hL'
    · apply apply_plans_hasCorr_mono
      rw [hplan]
      exact foldl_pairs_present now ek dk ps g p hp
    · have hn := apply_plan_nodes now L0 (label_plan dist f simT keyT g.nodes L0) res g
      exact ih _ _ L hL' ek dk ps (by rw [hn]; exact hplan) p hp

theorem apply_plans_length_of_saturated (dist : String → String → ℚ)
    (f : Faults) (simT keyT : ℚ) (now : Nat) (labels : List String)
    (res : ResolveResult) (g : Graph)
    (hSat : ∀ L ∈ labels, ∀ ek dk ps,
      label_plan dist f simT keyT g.nodes L = .build ek dk ps →
      ∀ p ∈ ps, g.hasCorr p.1 p.2.1 = true) :
    ((apply_plans dist f simT keyT now labels res g).2).edges.length =
      g.edges.length := by
  induction labels generalizing res g with
  | nil => rfl
  | cons L0 rest ih =>
    rw [apply_plans_cons]
    have hn := apply_plan_nodes now L0 (label_plan dist f simT keyT g.nodes L0) res g
    have hlen : ((apply_plan now L0 (label_plan dist f simT keyT g.nodes L0) res g).2).edges.length
        = g.edges.length := by
      cases hpl : label_plan dist f simT keyT g.nodes L0 with
      | noKeys ne nd => rfl
      | noCorrelation => rfl
      | mergeFault m => rfl
      | build ek dk ps =>
        simp only [apply_plan]
        exact foldl_length_of_present now ek dk ps g
          (fun p hp => hSat L0 (List.mem_cons_self L0 rest) ek dk ps hpl p hp)
    have hS' : ∀ L ∈ rest, ∀ ek dk ps,
        label_plan dist f simT keyT
          ((apply_plan now L0 (label_plan dist f simT keyT g.nodes L0) res g).2).nodes L
          = .build ek dk ps →
        ∀ p ∈ ps,
          ((apply_plan now L0 (label_plan dist f simT keyT g.nodes L0) res g).2).hasCorr p.1 p.2.1 = true := by
      intro L hL ek dk ps hplan p hp
      rw [hn] at hplan
      exact apply_plan_hasCorr_mono now L0 _ res g p.1 p.2.1
        (hSat L (List.mem_cons_of_mem L0 hL) ek dk ps hplan p hp)
    rw [ih _ _ hS', hlen]

theorem resolve_all_isOk (dist : String → String → ℚ) (f : Faults) (g : Graph)
    (simT keyT : ℚ) (now : Nat) :
    isOkE (resolve_all_entities dist f g simT keyT now) =
      ((f.labelsErr).isNone &&
        (find_unique_entity_labels g.nodes).all
          (fun L => (f.entityKeysErr L).isNone && (f.domainKeysErr L).isNone)) := by
  unfold resolve_all_entities find_unique_entity_labelsE
  cases hL : f.labelsErr with
  | some m => rfl
  | none =>
    show isOkE (resolve_loop dist f simT keyT now (find_unique_entity_labels g.nodes)
      { entities_resolved := [], total_relationships := 0, errors := [] } g) = _
    rw [resolve_loop_isOk]
    simp

theorem resolve_all_ok_conditions (dist : String → String → ℚ) (f : Faults)
    (g : Graph) (simT keyT : ℚ) (now : Nat) (rg : ResolveResult × Graph)
    (h : resolve_all_entities dist f g simT keyT now = .ok rg) :
    f.labelsErr = none ∧ ∀ L ∈ find_unique_entity_labels g.nodes,
      f.entityKeysErr L = none ∧ f.domainKeysErr L = none := by
  have hok : isOkE (resolve_all_entities dist f g simT keyT now) = true := by
    rw [h]
    rfl
  rw [resolve_all_isOk] at hok
  simp only [Bool.and_eq_true, List.all_eq_true, Option.isNone_iff_eq_none] at hok
  obtain ⟨hL, hall⟩ := hok
  exact ⟨hL, fun L hLmem => (hall L hLmem : _)⟩

theorem resolve_all_eq (dist : String → String → ℚ) (f : Faults) (g : Graph)
    (simT keyT : ℚ) (now : Nat) (hL : f.labelsErr = none)
    (hf : ∀ L ∈ find_unique_entity_labels g.nodes,
      f.entityKeysErr L = none ∧ f.domainKeysErr L = none) :
    resolve_all_entities dist f g simT keyT now =
      .ok (apply_plans dist f simT keyT now (find_unique_entity_labels g.nodes)
        { entities_resolved := [], total_relationships := 0, errors := [] } g) := by
  unfold resolve_all_entities find_unique_entity_labelsE
  rw [hL]
  exact resolve_loop_eq dist f simT keyT now _ _ g hf

/-! ### Membership in the similarity join -/

theorem matched_pairs_mem (dist : String → String → ℚ) (nodes : List Node)
    (label ek dk : String) (dt : ℚ) (s d : Nat) (q : ℚ) :
    (s, d, q) ∈ matched_pairs dist nodes label ek dk dt ↔
      ∃ en ∈ nodes, ∃ dn ∈ nodes,
        hasLabel en label = true ∧ hasLabel en "__Entity__" = true ∧
        hasLabel dn label = true ∧
        ∃ ev dv, lookupProp en ek = some ev ∧ lookupProp dn dk = some dv ∧
          dist (lowerStr ev) (lowerStr dv) < dt ∧
          s = en.nid ∧ d = dn.nid ∧
          q = 1 - dist (lowerStr ev) (lowerStr dv) := by
  unfold matched_pairs
  simp only [List.mem_flatMap, List.mem_filterMap, List.mem_filter,
    Bool.and_eq_true]
  constructor
  · rintro ⟨en, ⟨hen, hl1, hl2⟩, dn, ⟨hdn, hl3⟩, hfn⟩
    cases hev : lookupProp en ek with
    | none => rw [hev] at hfn; simp at hfn
    | some ev =>
      cases hdv : lookupProp dn dk with
      | none => rw [hev, hdv] at hfn; simp at hfn
      | some dv =>
        rw [hev, hdv] at hfn
        dsimp only at hfn
        by_cases hlt : dist (lowerStr ev) (lowerStr dv) < dt
        · rw [if_pos hlt] at hfn
          simp only [Option.some.injEq, Prod.mk.injEq] at hfn
          obtain ⟨rfl, rfl, rfl⟩ := hfn
          exact ⟨en, hen, dn, hdn, hl1, hl2, hl3, ev, dv, hev, hdv, hlt,
            rfl, rfl, rfl⟩
        · rw [if_neg hlt] at hfn
          simp at hfn
  · rintro ⟨en, hen, dn, hdn, hl1, hl2, hl3, ev, dv, hev, hdv, hlt, rfl, rfl, rfl⟩
    refine ⟨en, ⟨hen, hl1, hl2⟩, dn, ⟨hdn, hl3⟩, ?_⟩
    rw [hev, hdv]
    dsimp only
    rw [if_pos hlt]

/-! ### Concrete fixtures for witnesses and counterexamples -/

/-- A string metric instantiating the external APOC metric parameter in
concrete runs; like `jaroWinklerDistance` it gives distance `0` to equal
strings, and it gives distance `1` to the (entirely dissimilar) distinct
strings appearing in these fixtures. -/
def dist0 : String → String → ℚ := fun a b => if a == b then 0 else 1

/-- One extracted entity and one domain record sharing label `Product` and
bearing the same property value. -/
def twoPopGraph : Graph :=
  ⟨[⟨0, ["Product", "__Entity__"], [("name", "Widget")]⟩,
    ⟨1, ["Product"], [("name", "Widget")]⟩], []⟩

/-- A graph holding a single `Product` node, tagged as an extracted
entity. -/
def entityOnlyGraph : Graph :=
  ⟨[⟨0, ["Product", "__Entity__"], [("name", "Widget")]⟩], []⟩

/-- A fault oracle whose only failure is the entity-key discovery query
for label `Product`. -/
def faultyKeys : Faults :=
  { labelsErr := none
    entityKeysErr := fun L => if L == "Product" then some "boom" else none
    domainKeysErr := fun _ => none
    mergeErr := fun _ => none }

/-- Eleven entity nodes, each with two outgoing correspondence edges. -/
def gEleven : Graph :=
  ⟨(List.range 11).map (fun i => ⟨i, ["__Entity__"], []⟩),
   (List.range 11).flatMap
     (fun i => [⟨i, 100, "k", "k", 1, 0, 0⟩, ⟨i, 101, "k", "k", 1, 0, 0⟩])⟩

/-- One entity node with two outgoing correspondence edges. -/
def gMulti : Graph :=
  ⟨[⟨0, ["Product", "__Entity__"], []⟩],
   [⟨0, 5, "k", "k", 1, 0, 0⟩, ⟨0, 6, "k", "k", 1, 0, 0⟩]⟩

/-- Correspondence edges for two labels, `Product` and `Supplier`, each
from its own entity node. -/
def gScoped : Graph :=
  ⟨[⟨0, ["Product", "__Entity__"], []⟩, ⟨1, ["Product"], []⟩,
    ⟨2, ["Supplier", "__Entity__"], []⟩, ⟨3, ["Supplier"], []⟩],
   [⟨0, 1, "k", "k", 1, 0, 0⟩, ⟨2, 3, "k", "k", 1, 0, 0⟩]⟩

/-! ### Claims -/

/-- C1: the join pattern of `create_correspondence_relationships` matches
the `domain` side by label only, without excluding `__Entity__`-tagged
nodes; on a graph holding a single entity node the run creates a
correspondence edge from the entity node to itself, so the edge's target
carries the entity system label — contradicting the documented data model
(entity node → domain node). -/
theorem c1_correspondence_can_target_entity_node :
    create_correspondence_relationships dist0 noFaults entityOnlyGraph
        "Product" "name" "name" (9/10) 0 =
      (.success "Product" "name" "name" 1,
        ⟨[⟨0, ["Product", "__Entity__"], [("name", "Widget")]⟩],
         [⟨0, 0, "name", "name", 1, 0, 0⟩]⟩) ∧
    entityOnlyGraph.nodeHas 0 "__Entity__" = true := by
  constructor
  · with_unfolding_all rfl
  · decide

/-- C2 (amended): `resolve_all_entities` returns a result exactly when
label discovery and both key-discovery queries for every discovered label
succeed; a store-adapter error in any discovery query raises and aborts
the whole run, while correspondence-creation faults never prevent a
normal return (they are recorded in `errors` and the loop continues). -/
theorem c2_discovery_error_aborts_run (dist : String → String → ℚ)
    (f : Faults) (g : Graph) (simT keyT : ℚ) (now : Nat) :
    isOkE (resolve_all_entities dist f g simT keyT now) =
      ((f.labelsErr).isNone &&
        (find_unique_entity_labels g.nodes).all
          (fun L => (f.entityKeysErr L).isNone && (f.domainKeysErr L).isNone)) :=
  resolve_all_isOk dist f g simT keyT now

/-- C2 counterexample: with a store-adapter failure in the entity-key
discovery for label `Product`, `resolve_all_entities` does not record the
failure and continue — it aborts the whole run with the raised
exception. -/
theorem c2_counterexample :
    resolve_all_entities dist0 faultyKeys twoPopGraph (9/10) (8/10) 0 =
      .error "Failed to get entity keys: boom" := by
  with_unfolding_all rfl

/-- C3 (amended): a node pair is matched by the join — and hence receives
an upserted correspondence edge — exactly when both nodes carry the scoped
label, the source is entity-tagged, both properties are present, and the
case-insensitive similarity `1 - dist` is STRICTLY greater than
`similarity_threshold` (the source compares `distance < 1 - threshold`);
the second conjunct states the upsert: after the run an edge exists for a
node pair iff the pair was matched or the edge already existed. -/
theorem c3_edge_iff_similarity_strictly_above (dist : String → String → ℚ)
    (g : Graph) (label ek dk : String) (θ : ℚ) (now : Nat) (s d : Nat) (q : ℚ) :
    ((s, d, q) ∈ matched_pairs dist g.nodes label ek dk (1 - θ) ↔
      ∃ en ∈ g.nodes, ∃ dn ∈ g.nodes,
        hasLabel en label = true ∧ hasLabel en "__Entity__" = true ∧
        hasLabel dn label = true ∧
        ∃ ev dv, lookupProp en ek = some ev ∧ lookupProp dn dk = some dv ∧
          θ < 1 - dist (lowerStr ev) (lowerStr dv) ∧
          s = en.nid ∧ d = dn.nid ∧
          q = 1 - dist (lowerStr ev) (lowerStr dv)) ∧
    ((create_correspondence_relationships dist noFaults g label ek dk θ now).2).hasCorr s d =
      (g.hasCorr s d ||
        (matched_pairs dist g.nodes label ek dk (1 - θ)).any
          (fun p => p.1 == s && p.2.1 == d)) := by
  constructor
  · rw [matched_pairs_mem]
    constructor
    · rintro ⟨en, hen, dn, hdn, h1, h2, h3, ev, dv, hev, hdv, hlt, rfl, rfl, rfl⟩
      exact ⟨en, hen, dn, hdn, h1, h2, h3, ev, dv, hev, hdv,
        lt_sub_comm.mp hlt, rfl, rfl, rfl⟩
    · rintro ⟨en, hen, dn, hdn, h1, h2, h3, ev, dv, hev, hdv, hlt, rfl, rfl, rfl⟩
      exact ⟨en, hen, dn, hdn, h1, h2, h3, ev, dv, hev, hdv,
        lt_sub_comm.mp hlt, rfl, rfl, rfl⟩
  · show ((matched_pairs dist g.nodes label ek dk (1 - θ)).foldl
      (mergeCorr now ek dk) g).hasCorr s d = _
    exact hasCorr_foldl now ek dk _ g s d

/-- C3 counterexample: with `similarity_threshold = 1` the pair of equal
values has similarity exactly equal to the threshold, yet the strict
comparison rejects it: no relationship is created and the graph is
unchanged. -/
theorem c3_counterexample :
    (1 : ℚ) - dist0 (lowerStr "Widget") (lowerStr "Widget") = 1 ∧
    create_correspondence_relationships dist0 noFaults twoPopGraph
        "Product" "name" "name" 1 0 =
      (.success "Product" "name" "name" 0, twoPopGraph) := by
  constructor
  · with_unfolding_all rfl
  · with_unfolding_all rfl

/-- C4: re-running `resolve_all_entities` on the graph a successful run
produced, with the same thresholds and fault-free discovery, returns the
same `total_relationships` and leaves the number of correspondence edges
unchanged — the `MERGE` upsert updates timestamps instead of duplicating
edges, and the join depends only on the node population, which resolution
never modifies. -/
theorem c4_resolve_all_idempotent (dist : String → String → ℚ) (f : Faults)
    (g : Graph) (simT keyT : ℚ) (t1 t2 : Nat) (r1 r2 : ResolveResult)
    (g1 g2 : Graph)
    (h1 : resolve_all_entities dist f g simT keyT t1 = .ok (r1, g1))
    (h2 : resolve_all_entities dist f g1 simT keyT t2 = .ok (r2, g2)) :
    r2.total_relationships = r1.total_relationships ∧
    g2.edges.length = g1.edges.length := by
  obtain ⟨hL, hf⟩ := resolve_all_ok_conditions dist f g simT keyT t1 (r1, g1) h1
  rw [resolve_all_eq dist f g simT keyT t1 hL hf] at h1
  injection h1 with hp1
  have hr1 : r1 = (apply_plans dist f simT keyT t1
      (find_unique_entity_labels g.nodes)
      { entities_resolved := [], total_relationships := 0, errors := [] } g).1 := by
    rw [hp1]
  have hg1 : g1 = (apply_plans dist f simT keyT t1
      (find_unique_entity_labels g.nodes)
      { entities_resolved := [], total_relationships := 0, errors := [] } g).2 := by
    rw [hp1]
  have hnodes : g1.nodes = g.nodes := by
    rw [hg1]
    exact apply_plans_nodes dist f simT keyT t1 _ _ g
  have hf1 : ∀ L ∈ find_unique_entity_labels g1.nodes,
      f.entityKeysErr L = none ∧ f.domainKeysErr L = none := by
    rw [hnodes]
    exact hf
  rw [resolve_all_eq dist f g1 simT keyT t2 hL hf1] at h2
  injection h2 with hp2
  have hr2 : r2 = (apply_plans dist f simT keyT t2
      (find_unique_entity_labels g1.nodes)
      { entities_resolved := [], total_relationships := 0, errors := [] } g1).1 := by
    rw [hp2]
  have hg2 : g2 = (apply_plans dist f simT keyT t2
      (find_unique_entity_labels g1.nodes)
      { entities_resolved := [], total_relationships := 0, errors := [] } g1).2 := by
    rw [hp2]
  constructor
  · rw [hr1, hr2, apply_plans_total, apply_plans_total, hnodes]
  · have hSat : ∀ L ∈ find_unique_entity_labels g1.nodes, ∀ ek dk ps,
        label_plan dist f simT keyT g1.nodes L = .build ek dk ps →
        ∀ p ∈ ps, g1.hasCorr p.1 p.2.1 = true := by
      intro L hLm ek dk ps hplan p hp
      rw [hnodes] at hLm hplan
      rw [hg1]
      exact apply_plans_presence dist f simT keyT t1 _ _ g L hLm ek dk ps hplan p hp
    rw [hg2]
    exact apply_plans_length_of_saturated dist f simT keyT t2 _ _ g1 hSat

/-- C4 witness: the two-population fixture, resolved twice. -/
theorem c4_witness :
    (ResolveResult.mk [("Product", 2)] 2 []).total_relationships =
      (ResolveResult.mk [("Product", 2)] 2 []).total_relationships ∧
    (Graph.mk
      [⟨0, ["Product", "__Entity__"], [("name", "Widget")]⟩,
       ⟨1, ["Product"], [("name", "Widget")]⟩]
      [⟨0, 0, "name", "name", 1, 0, 1⟩, ⟨0, 1, "name", "name", 1, 0, 1⟩]).edges.length =
    (Graph.mk
      [⟨0, ["Product", "__Entity__"], [("name", "Widget")]⟩,
       ⟨1, ["Product"], [("name", "Widget")]⟩]
      [⟨0, 0, "name", "name", 1, 0, 0⟩, ⟨0, 1, "name", "name", 1, 0, 0⟩]).edges.length :=
  c4_resolve_all_idempotent dist0 noFaults twoPopGraph (9/10) (8/10) 0 1
    (ResolveResult.mk [("Product", 2)] 2 [])
    (ResolveResult.mk [("Product", 2)] 2 [])
    (Graph.mk
      [⟨0, ["Product", "__Entity__"], [("name", "Widget")]⟩,
       ⟨1, ["Product"], [("name", "Widget")]⟩]
      [⟨0, 0, "name", "name", 1, 0, 0⟩, ⟨0, 1, "name", "name", 1, 0, 0⟩])
    (Graph.mk
      [⟨0, ["Product", "__Entity__"], [("name", "Widget")]⟩,
       ⟨1, ["Product"], [("name", "Widget")]⟩]
      [⟨0, 0, "name", "name", 1, 0, 1⟩, ⟨0, 1, "name", "name", 1, 0, 1⟩])
    (by with_unfolding_all rfl) (by with_unfolding_all rfl)

/-- C5 (amended): whenever `resolve_all_entities` returns a result, the
result dictionary holds exactly the keys `entities_resolved`,
`total_relationships` and `errors` — there is no `status` field. -/
theorem c5_result_dict_shape (dist : String → String → ℚ) (f : Faults)
    (g : Graph) (simT keyT : ℚ) (now : Nat) (r : ResolveResult) (g' : Graph)
    (h : resolve_all_entities dist f g simT keyT now = .ok (r, g')) :
    r.toDict.map Prod.fst = ["entities_resolved", "total_relationships", "errors"] ∧
    "status" ∉ r.toDict.map Prod.fst := by
  refine ⟨rfl, ?_⟩
  show "status" ∉ ["entities_resolved", "total_relationships", "errors"]
  decide

/-- C5 witness: the empty-graph run. -/
theorem c5_witness :
    (ResolveResult.mk [] 0 []).toDict.map Prod.fst =
      ["entities_resolved", "total_relationships", "errors"] ∧
    "status" ∉ (ResolveResult.mk [] 0 []).toDict.map Prod.fst :=
  c5_result_dict_shape dist0 noFaults ⟨[], []⟩ 0 0 0 (ResolveResult.mk [] 0 [])
    ⟨[], []⟩ (by with_unfolding_all rfl)

/-- C5 counterexample: a returned result carries no `status` key (its keys
are exactly the three of the literal at lines 245-249), refuting the part
of the claim that asserts a status field is always present. -/
theorem c5_counterexample :
    resolve_all_entities dist0 noFaults (⟨[], []⟩ : Graph) 0 0 0 =
      .ok (ResolveResult.mk [] 0 [], ⟨[], []⟩) ∧
    "status" ∉ (ResolveResult.mk [] 0 []).toDict.map Prod.fst := by
  exact ⟨by with_unfolding_all rfl, by decide⟩

/-- C6 (amended): `validate_resolutions` reports a
`multiple_correspondences` issue — with the entity's id, labels and
correspondence count — for every entity node with more than one outgoing
correspondence edge, PROVIDED at most 10 such nodes exist: the source
query carries `LIMIT 10`, so only the first ten ambiguous entities are
reported. -/
theorem c6_multiple_correspondences_reported (g : Graph)
    (hsmall : (g.nodes.filter (fun n =>
      hasLabel n "__Entity__" && decide (1 < outCorrCount g n))).length ≤ 10)
    (n : Node) (hn : n ∈ g.nodes) (hent : hasLabel n "__Entity__" = true)
    (hmulti : 1 < outCorrCount g n) :
    Issue.multiple_correspondences n.nid n.labels (outCorrCount g n)
        ("Entity has " ++ toString (outCorrCount g n) ++ " correspondences")
      ∈ validate_resolutions g := by
  unfold validate_resolutions
  apply List.mem_append_left
  unfold multi_correspondence_issues
  rw [List.take_of_length_le hsmall]
  exact List.mem_map_of_mem _
    (List.mem_filter.mpr ⟨hn, by rw [hent]; simpa using hmulti⟩)

/-- C6 witness: a single ambiguous entity is reported. -/
theorem c6_witness :
    Issue.multiple_correspondences 0 ["Product", "__Entity__"] 2
        "Entity has 2 correspondences" ∈ validate_resolutions gMulti :=
  c6_multiple_correspondences_reported gMulti (by decide)
    ⟨0, ["Product", "__Entity__"], []⟩ (by decide) (by decide) (by decide)

/-- C6 counterexample: with eleven ambiguous entities, only ten issues are
returned — the eleventh ambiguous node is not reported, refuting the
claim's "every such node is reported, regardless of how many there
are". -/
theorem c6_counterexample :
    (gEleven.nodes.filter (fun n =>
      hasLabel n "__Entity__" && decide (1 < outCorrCount gEleven n))).length = 11 ∧
    (validate_resolutions gEleven).length = 10 := by
  constructor
  · decide
  · with_unfolding_all decide

/-- C7: for label `Product` the keys `Product_Name` and `name` both
normalize to `name`, and `correlate_keys` pairs them with score `1.0`. -/
theorem c7_normalization_and_correlation :
    normalize_key "Product" "Product_Name" = "name" ∧
    normalize_key "Product" "name" = "name" ∧
    correlate_keys "Product" ["Product_Name"] ["name"] (8/10)
      = [("Product_Name", "name", 1)] := by
  refine ⟨by decide, by decide, by with_unfolding_all decide⟩

/-- C8: the quality score of `validate_graph_quality` equals
`max(0, 100 - min(2*orphans, 30) - (20 if connectivity < 0.5 else 0)
- (10 if relationship types < 3 else 0))` for every combination of the
three metrics. -/
theorem c8_quality_score_formula (o : Nat) (c : ℚ) (t : Nat) :
    quality_score o c t =
      max 0 (100 - min (2 * (o : Int)) 30 -
        (if c < 1/2 then 20 else 0) - (if t < 3 then 10 else 0)) := by
  unfold quality_score
  dsimp only
  split_ifs <;> first
    | omega
    | (exfalso; linarith)

/-- C9: under the data-model invariant that every correspondence edge
starts at an `__Entity__`-tagged node (the builder's `MATCH` guarantees
this for engine-created edges), the label-scoped removal deletes exactly
the correspondence edges whose entity endpoint carries `Product`: the
remaining edges are precisely those whose source does not carry the label,
the reported count is the number of `Product`-sourced edges, and the
number of other-label edges is unchanged by the call. -/
theorem c9_scoped_deletion (g : Graph)
    (H : ∀ e ∈ g.edges, g.nodeHas e.src "__Entity__" = true) :
    ((remove_correspondence_relationships g (some "Product")).2).edges =
      g.edges.filter (fun e => !(g.nodeHas e.src "Product")) ∧
    (remove_correspondence_relationships g (some "Product")).1.deleted_count =
      (g.edges.filter (fun e => g.nodeHas e.src "Product")).length ∧
    (((remove_correspondence_relationships g (some "Product")).2).edges.filter
        (fun e => !(g.nodeHas e.src "Product"))).length =
      (g.edges.filter (fun e => !(g.nodeHas e.src "Product"))).length := by
  have hEdges : ((remove_correspondence_relationships g (some "Product")).2).edges =
      g.edges.filter (fun e => !(g.nodeHas e.src "Product")) := by
    show g.edges.filter _ = _
    apply List.filter_congr
    intro e he
    simp [corrDeletePred, H e he]
  refine ⟨hEdges, ?_, ?_⟩
  · show (g.edges.filter _).length = _
    congr 1
    apply List.filter_congr
    intro e he
    simp [corrDeletePred, H e he]
  · rw [hEdges, List.filter_filter]
    congr 1
    apply List.filter_congr
    intro e _
    rw [Bool.and_self]

/-- C9 witness: deleting the `Product`-scoped correspondences leaves the
`Supplier` correspondence untouched. -/
theorem c9_witness :
    ((remove_correspondence_relationships gScoped (some "Product")).2).edges =
      gScoped.edges.filter (fun e => !(gScoped.nodeHas e.src "Product")) ∧
    (remove_correspondence_relationships gScoped (some "Product")).1.deleted_count =
      (gScoped.edges.filter (fun e => gScoped.nodeHas e.src "Product")).length ∧
    (((remove_correspondence_relationships gScoped (some "Product")).2).edges.filter
        (fun e => !(gScoped.nodeHas e.src "Product"))).length =
      (gScoped.edges.filter (fun e => !(gScoped.nodeHas e.src "Product"))).length :=
  c9_scoped_deletion gScoped (by decide)

theorem apply_plan_sum_inv (now : Nat) (L : String) (pl : LabelPlan)
    (res : ResolveResult) (g : Graph)
    (h : res.total_relationships = (res.entities_resolved.map Prod.snd).sum) :
    (apply_plan now L pl res g).1.total_relationships =
      ((apply_plan now L pl res g).1.entities_resolved.map Prod.snd).sum := by
  cases pl <;> simp [apply_plan, h]

theorem apply_plans_sum_inv (dist : String → String → ℚ) (f : Faults)
    (simT keyT : ℚ) (now : Nat) (labels : List String) (res : ResolveResult)
    (g : Graph)
    (h : res.total_relationships = (res.entities_resolved.map Prod.snd).sum) :
    (apply_plans dist f simT keyT now labels res g).1.total_relationships =
      ((apply_plans dist f simT keyT now labels res g).1.entities_resolved.map
        Prod.snd).sum := by
  induction labels generalizing res g with
  | nil => exact h
  | cons L rest ih =>
    rw [apply_plans_cons]
    exact ih _ _ (apply_plan_sum_inv now L _ res g h)

/-- C10: whenever `resolve_all_entities` returns a result, its
`total_relationships` equals the sum of the per-label counts recorded in
`entities_resolved` — both are only ever updated together, by the same
amount, on a successful build; failed or skipped labels touch neither. -/
theorem c10_total_is_sum_of_per_label_counts (dist : String → String → ℚ)
    (f : Faults) (g : Graph) (simT keyT : ℚ) (now : Nat) (r : ResolveResult)
    (g' : Graph)
    (h : resolve_all_entities dist f g simT keyT now = .ok (r, g')) :
    r.total_relationships = (r.entities_resolved.map Prod.snd).sum := by
  obtain ⟨hL, hf⟩ := resolve_all_ok_conditions dist f g simT keyT now (r, g') h
  rw [resolve_all_eq dist f g simT keyT now hL hf] at h
  injection h with hp
  have hr : r = (apply_plans dist f simT keyT now
      (find_unique_entity_labels g.nodes)
      { entities_resolved := [], total_relationships := 0, errors := [] } g).1 := by
    rw [hp]
  rw [hr]
  exact apply_plans_sum_inv dist f simT keyT now _ _ g rfl

/-- C10 witness: the two-population fixture run. -/
theorem c10_witness :
    (ResolveResult.mk [("Product", 2)] 2 []).total_relationships =
      ((ResolveResult.mk [("Product", 2)] 2 []).entities_resolved.map
        Prod.snd).sum :=
  c10_total_is_sum_of_per_label_counts dist0 noFaults twoPopGraph (9/10) (8/10) 0
    (ResolveResult.mk [("Product", 2)] 2 [])
    (Graph.mk
      [⟨0, ["Product", "__Entity__"], [("name", "Widget")]⟩,
       ⟨1, ["Product"], [("name", "Widget")]⟩]
      [⟨0, 0, "name", "name", 1, 0, 0⟩, ⟨0, 1, "name", "name", 1, 0, 0⟩])
    (by with_unfolding_all rfl)
